import Mathlib

/-!
Verification of the OpenHR20 motor/position controller (`src/trunk/source/motor.c`).

The C module is embedded shallowly: the process-wide singleton state (the
`MOTOR_*` globals, the interrupt-layer timers, the relevant hardware registers
and the scheduler/task flags) becomes one Lean structure, and every C function
that the claims touch becomes a pure Lean state transformer.  AVR `int16_t`
arithmetic is modelled on `Int` with an explicit wrap `i16` applied wherever
the C program stores or computes a 16-bit value that can overflow; `uint8_t` /
`uint16_t` values are modelled on `Nat`.
-/

/-- Motor direction, from `motor.h`'s `motor_dir_t`.  The spec (§3) fixes the
numeric convention used by `MOTOR_PosAct += MOTOR_Dir`: stop = 0, open = +1,
close = −1.  `open` is a Lean keyword, hence the constructor name `open_`. -/
inductive motor_dir_t where
  | stop : motor_dir_t
  | open_ : motor_dir_t
  | close : motor_dir_t
deriving DecidableEq

/-- The signed pulse increment corresponding to a direction
(spec §3: "+1 open, −1 close"). -/
def dirSign : motor_dir_t → Int
  | .stop => 0
  | .open_ => 1
  | .close => -1

/-- Wrap an integer into the `int16_t` range [−32768, 32767], the behaviour of
16-bit AVR integer arithmetic on overflow. -/
def i16 (x : Int) : Int := (x + 32768) % 65536 - 32768

/-- Arithmetic shift right by 2 (`>> 2` on a signed 16-bit value, GCC/AVR
semantics: floor division by 4). -/
def asr2 (x : Int) : Int := Int.fdiv x 4

/-- Wrapping `uint16_t` subtraction `a - b` with wrap-around, used for
`motor_max_time_for_impulse - motor_timer`. -/
def u16sub (a b : Nat) : Nat := ((65536 + a % 65536) - b % 65536) % 65536

/-- Constant `MOTOR_RUN_OVERLOAD` from `motor.c` line 73: the short fixed overrun
timeout `3*256` armed when the pulse counter reaches `MOTOR_PosStop`. -/
def MOTOR_RUN_OVERLOAD : Nat := 3 * 256

/-- The `TCCR0A` value with the PWM clock stopped: `(1<<WGM00)|(1<<WGM01)`
(bit numbers WGM00 = 6, WGM01 = 3 from the ATmega169 `avr/io.h`). -/
def TCCR0A_pwm_off : Nat := 72

/-- The `TCCR0A` value for closing: `(1<<WGM00)|(1<<WGM01)|(1<<COM0A1)|(1<<CS00)`
(COM0A1 = 5, CS00 = 0). -/
def TCCR0A_pwm_close : Nat := 105

/-- The `TCCR0A` value for opening (inverting PWM): additionally `(1<<COM0A0)`
(COM0A0 = 4). -/
def TCCR0A_pwm_open : Nat := 121

/-- Configuration inputs of the motor core.

`motor_run_timeout`, `motor_speed_open`, `motor_speed_close`,
`motor_protection` and `motor_hysteresis` are the `uint8_t` fields of the
external eeprom-backed `config` record that `motor.c` reads.

`MOTOR_MAX_IMPULSES`, `MOTOR_MIN_IMPULSES` and `EYE_TIMER_NOISE_PROTECTION`
are compile-time constants of `motor.h`, which is not among the provided
sources.  Modelled from the spec: `MOTOR_MAX_IMPULSES` is the maximum
plausible travel (the `StopPosition` offset of a full calibration leg),
`MOTOR_MIN_IMPULSES` the minimum plausible travel, and
`EYE_TIMER_NOISE_PROTECTION` the noise-protection debounce window armed after
every counted pulse. -/
structure Config where
  motor_run_timeout : Nat
  motor_speed_open : Nat
  motor_speed_close : Nat
  motor_protection : Nat
  motor_hysteresis : Nat
  MOTOR_MAX_IMPULSES : Int
  MOTOR_MIN_IMPULSES : Int
  EYE_TIMER_NOISE_PROTECTION : Nat
deriving DecidableEq

/-- The hardware registers `MOTOR_Control` and the interrupt handlers touch:
timer-interrupt mask, pin-change mask, the photo-eye supply pin `PE3`, the
H-bridge output state, the PWM control register `TCCR0A` and the PWM duty
register `OCR0A`. -/
structure HWState where
  TIMSK0 : Nat
  PCMSK0 : Nat
  PE3 : Bool
  HBridge : motor_dir_t
  TCCR0A : Nat
  OCR0A : Nat
deriving DecidableEq

/-- The mutable state of `motor.c`: the `MOTOR_*` globals, the
interrupt-layer counters, the last sampled `PINE` value, the `CTL_ERR_MOTOR`
bit of the shared error register, the two scheduler task flags and a count of
`eeprom_config_save` calls (the persistence collaborator). -/
structure MotorState where
  MOTOR_PosAct : Int
  MOTOR_PosMax : Int
  MOTOR_PosStop : Int
  MOTOR_Dir : motor_dir_t
  MOTOR_calibration_step : Int
  MOTOR_ManuCalibration : Int
  MOTOR_wait_for_new_calibration : Nat
  eye_timer : Nat
  motor_timer : Nat
  motor_max_time_for_impulse : Nat
  motor_diag : Nat
  pine_last : Nat
  CTL_error_motor : Bool
  task_motor_pulse : Bool
  task_motor_stop : Bool
  eeprom_saves : Nat
  hw : HWState
deriving DecidableEq

/-- Function `MOTOR_Control` (motor.c lines 225–264): H-bridge / PWM / sensor control.
`stop` always fully quiesces the hardware; a non-stop direction reconfigures
the hardware and re-arms the timers only when the direction actually
changes.  The final `MOTOR_Dir = direction` assignment is unconditional. -/
def MOTOR_Control (cfg : Config) (direction : motor_dir_t) (s : MotorState) :
    MotorState :=
  let s :=
    if direction = .stop then
      { s with hw := { s.hw with
          TIMSK0 := 0,
          PCMSK0 := s.hw.PCMSK0 &&& 0xef,  -- PCMSK0 &= ~(1<<PCINT4), PCINT4 = 4
          PE3 := false,
          HBridge := .stop,
          TCCR0A := TCCR0A_pwm_off } }
    else
      if s.MOTOR_Dir ≠ direction then
        let t := (cfg.motor_run_timeout <<< 8) % 65536
        let s := { s with
          hw := { s.hw with
            PE3 := true,
            TIMSK0 := 1,                    -- (1<<TOIE0), TOIE0 = 0
            PCMSK0 := s.hw.PCMSK0 ||| 0x10 },
          motor_max_time_for_impulse := t,
          motor_timer := t,
          eye_timer := cfg.EYE_TIMER_NOISE_PROTECTION }
        if direction = .close then
          { s with hw := { s.hw with
              HBridge := .close,
              OCR0A := cfg.motor_speed_close,
              TCCR0A := TCCR0A_pwm_close } }
        else
          { s with hw := { s.hw with
              HBridge := .open_,
              OCR0A := cfg.motor_speed_open,
              TCCR0A := TCCR0A_pwm_open } }
      else s
  { s with MOTOR_Dir := direction }

/-- Function `MOTOR_updateCalibration` (motor.c lines 97–134).  `cal_type 0` stops the
motor and resets all calibration state; other call types first let the
retry-wait counter elapse, then launch a pending calibration leg (step 1 or
2), and finally initialize the state machine from the uninitialized state
`-2` (where `cal_type` 3 switches `MOTOR_ManuCalibration` to `-1` with two
eeprom saves and `cal_type` 2 switches it to `0`). -/
def MOTOR_updateCalibration (cfg : Config) (cal_type percent : Nat)
    (s : MotorState) : MotorState :=
  if cal_type = 0 then
    let s := MOTOR_Control cfg .stop s
    { s with
      MOTOR_PosAct := 0,
      MOTOR_PosMax := 0,
      MOTOR_calibration_step := -2,
      MOTOR_wait_for_new_calibration := 5 }
  else
    let s :=
      if s.MOTOR_wait_for_new_calibration ≠ 0 then
        { s with MOTOR_wait_for_new_calibration :=
            s.MOTOR_wait_for_new_calibration - 1 }
      else
        if s.MOTOR_calibration_step = 1 ∨ s.MOTOR_calibration_step = 2 then
          let s := { s with MOTOR_calibration_step :=
              s.MOTOR_calibration_step + 2 }
          if s.MOTOR_ManuCalibration = -1 ∧ percent > 50 then
            let s := { s with MOTOR_PosStop := i16 (-cfg.MOTOR_MAX_IMPULSES) }
            MOTOR_Control cfg .close s
          else
            let s := { s with MOTOR_PosStop := i16 cfg.MOTOR_MAX_IMPULSES }
            MOTOR_Control cfg .open_ s
        else s
    if s.MOTOR_calibration_step = -2 then
      let s :=
        if cal_type = 3 then
          { s with MOTOR_ManuCalibration := -1,
                   eeprom_saves := s.eeprom_saves + 2 }
        else if cal_type = 2 then
          { s with MOTOR_ManuCalibration := 0 }
        else s
      let s := { s with MOTOR_calibration_step := 1 }
      if s.MOTOR_ManuCalibration ≥ 0 then
        { s with MOTOR_calibration_step := s.MOTOR_calibration_step + 1 }
      else s
    else s

/-- Function `MOTOR_GetPosPercent` (motor.c lines 143–150): returns
`(uint8_t)((MOTOR_PosAct * 10) / (MOTOR_PosMax / 10))` when
`MOTOR_PosMax > 10` and calibration is done, else the sentinel 255.  The C
division truncates toward zero (`Int.tdiv`) and the `uint8_t` cast is a
reduction mod 256. -/
def MOTOR_GetPosPercent (s : MotorState) : Nat :=
  if s.MOTOR_PosMax > 10 ∧ s.MOTOR_calibration_step = 0 then
    (((i16 (s.MOTOR_PosAct * 10)).tdiv (s.MOTOR_PosMax.tdiv 10)) % 256).toNat
  else 255

/-- Function `MOTOR_IsCalibrated` (motor.c lines 158–161). -/
def MOTOR_IsCalibrated (s : MotorState) : Bool :=
  s.MOTOR_PosMax ≠ 0 ∧ s.MOTOR_calibration_step = 0

/-- The stop position `MOTOR_Goto` computes from a percentage (motor.c lines
178–191): protected extremes for 0 and 100, and the linear interpolation
`(int16_t)(percent * ((MOTOR_PosMax - 2*protection) >> 2) / (100 >> 2))
 + protection` for intermediate percentages, all in `int16_t` arithmetic. -/
def MOTOR_Goto_stopPos (cfg : Config) (percent : Nat) (posMax : Int) : Int :=
  if percent = 100 then
    i16 (posMax + (cfg.motor_hysteresis : Int) - (cfg.motor_protection : Int))
  else if percent = 0 then
    i16 ((cfg.motor_protection : Int) - (cfg.motor_hysteresis : Int))
  else
    i16 ((i16 ((percent : Int) *
            asr2 (i16 (posMax - (cfg.motor_protection : Int)
                        - (cfg.motor_protection : Int))))).tdiv 25
         + (cfg.motor_protection : Int))

/-- Function `MOTOR_Goto` (motor.c lines 173–206): only acts when
`MOTOR_calibration_step == 0`; sets `MOTOR_PosStop`, and when the motor is
idle commands `close`/`open` depending on the comparison of the actual and
the new stop position; returns true.  Otherwise returns false and changes
nothing. -/
def MOTOR_Goto (cfg : Config) (percent : Nat) (s : MotorState) :
    Bool × MotorState :=
  if s.MOTOR_calibration_step = 0 then
    let s := { s with MOTOR_PosStop :=
        MOTOR_Goto_stopPos cfg percent s.MOTOR_PosMax }
    let s :=
      if s.MOTOR_Dir = .stop then
        let a := s.MOTOR_PosAct
        let t := s.MOTOR_PosStop
        if a > t then MOTOR_Control cfg .close s
        else if a < t then MOTOR_Control cfg .open_ s
        else s
      else s
    (true, s)
  else (false, s)

/-- Lines 288–332 of `MOTOR_timer_stop`: quiesce the hardware, then either
record a calibration error (debounce counter at the `0xff` sentinel: the
motor timed out without the pulse counter reaching the stop position) or
process a normal end-stop for the previous direction, including the
calibration-leg progression and the range correction / recalibration of
`MOTOR_PosMax`. -/
def MOTOR_timer_stop_update (cfg : Config) (s0 : MotorState) : MotorState :=
  let d := s0.MOTOR_Dir
  let s := MOTOR_Control cfg .stop s0
  if s.eye_timer = 0xff then
    if s.MOTOR_calibration_step ≠ 0 then
      { s with MOTOR_calibration_step := -1 }
    else s
  else
    if d = .open_ then
      let a := s.MOTOR_PosAct
      let s : MotorState :=
        if s.MOTOR_ManuCalibration ≤ 0 then
          let s := { s with MOTOR_PosMax := a }
          if s.MOTOR_ManuCalibration = 0 ∧
              s.MOTOR_PosMax ≥ cfg.MOTOR_MIN_IMPULSES then
            { s with MOTOR_ManuCalibration := a,
                     eeprom_saves := s.eeprom_saves + 2 }
          else s
        else
          { s with MOTOR_PosMax := s.MOTOR_ManuCalibration,
                   MOTOR_PosAct := s.MOTOR_ManuCalibration }
      if s.MOTOR_calibration_step = 3 then
        let s := MOTOR_Control cfg .close s
        { s with MOTOR_PosStop := i16 (a - cfg.MOTOR_MAX_IMPULSES),
                 MOTOR_calibration_step := 4 }
      else if s.MOTOR_calibration_step = 4 then
        { s with MOTOR_calibration_step := 0 }
      else s
    else if d = .close then
      let a := s.MOTOR_PosAct
      let s : MotorState :=
        if s.MOTOR_ManuCalibration < 0 then
          { s with MOTOR_PosMax := i16 (s.MOTOR_PosMax - a) }
        else s
      let s := { s with MOTOR_PosAct := 0 }
      if s.MOTOR_calibration_step = 3 then
        let s := { s with MOTOR_PosStop := i16 (a + cfg.MOTOR_MAX_IMPULSES) }
        let s := MOTOR_Control cfg .open_ s
        { s with MOTOR_calibration_step := 4 }
      else if s.MOTOR_calibration_step = 4 then
        { s with MOTOR_calibration_step := 0 }
      else s
    else s

/-- Lines 333–338 of `MOTOR_timer_stop`: the fault check.  Once calibrated,
a position beyond `MOTOR_MAX_IMPULSES + 1` or a travel range below
`MOTOR_MIN_IMPULSES` raises the `CTL_ERR_MOTOR` flag, every other outcome
clears it. -/
def MOTOR_faultCheck (cfg : Config) (s : MotorState) : MotorState :=
  if s.MOTOR_calibration_step = 0 ∧
      (s.MOTOR_PosAct > cfg.MOTOR_MAX_IMPULSES + 1 ∨
       s.MOTOR_PosMax < cfg.MOTOR_MIN_IMPULSES) then
    { s with CTL_error_motor := true }
  else
    { s with CTL_error_motor := false }

/-- Function `MOTOR_timer_stop` (motor.c lines 287–339): the deferred stop handler,
invoked from task context after a stop signal. -/
def MOTOR_timer_stop (cfg : Config) (s : MotorState) : MotorState :=
  MOTOR_faultCheck cfg (MOTOR_timer_stop_update cfg s)

/-- The motor-eye part of `ISR (PCINT0_vect)` (motor.c lines 352–376) for a
sampled port value `pine`.  A pulse qualifies when `PE4` (bit 4) is high, was
low in the previous sample, and the noise-debounce counter is zero; it then
advances `MOTOR_PosAct` by the direction sign and re-arms either the short
overrun timeout with the `0xff` sentinel (target reached) or the
noise-protection window with the per-pulse timeout.  (The conditional-compile
`COM_RS232`/`COM_RS485` branch concerns only the serial collaborator's `PE0`
wake-up and is outside the motor core.) -/
def ISR_PCINT0 (cfg : Config) (pine : Nat) (s : MotorState) : MotorState :=
  let s :=
    -- (pine & ~pine_last & (1<<PE4)) != 0 && eye_timer == 0
    if pine.testBit 4 ∧ ¬ s.pine_last.testBit 4 ∧ s.eye_timer = 0 then
      let s := { s with
        MOTOR_PosAct := i16 (s.MOTOR_PosAct + dirSign s.MOTOR_Dir),
        motor_diag := u16sub s.motor_max_time_for_impulse s.motor_timer,
        task_motor_pulse := true }
      if s.MOTOR_PosAct = s.MOTOR_PosStop then
        { s with eye_timer := 0xff, motor_timer := MOTOR_RUN_OVERLOAD }
      else
        { s with eye_timer := cfg.EYE_TIMER_NOISE_PROTECTION,
                 motor_timer := s.motor_max_time_for_impulse }
    else s
  { s with pine_last := pine }

/-- Handler `ISR (TIMER0_OVF_vect)` (motor.c lines 384–402): the periodic timing
tick.  Decrements the timeout counter; at zero it force-stops the hardware
output and signals the scheduler.  The debounce counter decrements down to
zero unless it holds the `0xff` sentinel. -/
def ISR_TIMER0_OVF (s : MotorState) : MotorState :=
  let s :=
    if s.motor_timer > 0 then
      { s with motor_timer := s.motor_timer - 1 }
    else
      { s with
        hw := { s.hw with HBridge := .stop, TCCR0A := TCCR0A_pwm_off },
        motor_diag := if s.eye_timer = 0xff then 0xffff else 0xfffe,
        task_motor_stop := true,
        task_motor_pulse := true }
  let e := s.eye_timer
  if e > 0 ∧ e < 0xff then { s with eye_timer := e - 1 } else s

/-- A concrete configuration used for witnesses and scenario runs.  The
eeprom fields use plausible `uint8_t` values; the `motor.h` constants use the
spec-modelled roles (maximum plausible travel well above the minimum). -/
def cfg0 : Config :=
  { motor_run_timeout := 10
    motor_speed_open := 138
    motor_speed_close := 124
    motor_protection := 10
    motor_hysteresis := 5
    MOTOR_MAX_IMPULSES := 1000
    MOTOR_MIN_IMPULSES := 100
    EYE_TIMER_NOISE_PROTECTION := 2 }

/-- The quiesced hardware state (all outputs off). -/
def hw0 : HWState :=
  { TIMSK0 := 0, PCMSK0 := 0, PE3 := false, HBridge := .stop,
    TCCR0A := TCCR0A_pwm_off, OCR0A := 0 }

/-- The state after C static initialization of `motor.c`'s globals
(`MOTOR_PosAct = 0`, `MOTOR_PosMax = 0`, `MOTOR_calibration_step = -2`,
`MOTOR_wait_for_new_calibration = 5`, zeroed timers), parametrized by the
externally loaded `MOTOR_ManuCalibration` configuration value. -/
def initState (manu : Int) : MotorState :=
  { MOTOR_PosAct := 0
    MOTOR_PosMax := 0
    MOTOR_PosStop := 0
    MOTOR_Dir := .stop
    MOTOR_calibration_step := -2
    MOTOR_ManuCalibration := manu
    MOTOR_wait_for_new_calibration := 5
    eye_timer := 0
    motor_timer := 0
    motor_max_time_for_impulse := 0
    motor_diag := 0
    pine_last := 0
    CTL_error_motor := false
    task_motor_pulse := false
    task_motor_stop := false
    eeprom_saves := 0
    hw := hw0 }

/-- Concrete state for the sentinel-timeout scenario: motor was opening
towards `MOTOR_PosStop = 42`, the overrun timeout fired with the debounce
counter holding the `0xff` sentinel, calibration leg 3 in progress. -/
def c1state : MotorState :=
  { initState (-1) with
    eye_timer := 0xff, MOTOR_calibration_step := 3, MOTOR_PosAct := 41,
    MOTOR_PosMax := 77, MOTOR_PosStop := 42, MOTOR_Dir := .open_ }

/-- Concrete calibrated state with a negative `MOTOR_PosAct`: the scaling in
`MOTOR_GetPosPercent` then yields the sentinel value 255 even though the
controller is calibrated. -/
def c2state : MotorState :=
  { initState (-1) with
    MOTOR_calibration_step := 0, MOTOR_PosMax := 100, MOTOR_PosAct := -1 }

/-- Concrete calibrated in-range state for the `MOTOR_GetPosPercent` range
bound (position 50 of 100). -/
def c2okState : MotorState :=
  { initState (-1) with
    MOTOR_calibration_step := 0, MOTOR_PosMax := 100, MOTOR_PosAct := 50 }

/-- Concrete state with `MOTOR_calibration_step = 0` but `MOTOR_PosMax = 0`:
`MOTOR_IsCalibrated` is false, yet `MOTOR_Goto` only checks the step. -/
def c3state : MotorState := { initState (-1) with MOTOR_calibration_step := 0 }

/-- Concrete calibrated state (travel range 100 pulses) for the stop-position
interpolation. -/
def c4state : MotorState :=
  { initState (-1) with MOTOR_calibration_step := 0, MOTOR_PosMax := 100 }

/-- Concrete moving state one pulse short of `MOTOR_PosStop`, debounce
counter at zero, for the expected-stop pulse scenario. -/
def c5state : MotorState :=
  { initState (-1) with
    MOTOR_calibration_step := 0, MOTOR_PosMax := 100, MOTOR_PosAct := 41,
    MOTOR_PosStop := 42, MOTOR_Dir := .open_, motor_timer := 300,
    motor_max_time_for_impulse := 2560 }

/-- Concrete state with the motor running open, used for the idempotence
witness of `MOTOR_Control`. -/
def c8state : MotorState := { initState (-1) with MOTOR_Dir := .open_ }

/-- Concrete calibrated idle state whose actual position equals the stop
position that `MOTOR_Goto 0` computes (`protection - hysteresis = 5` under
`cfg0`). -/
def c10state : MotorState :=
  { initState (-1) with
    MOTOR_calibration_step := 0, MOTOR_PosMax := 100, MOTOR_PosAct := 5 }

/-- Auto-mode state (no manual calibration configured) with the retry-wait
counter already elapsed and a pending calibration start, step 1. -/
def launchAuto : MotorState :=
  { initState (-1) with
    MOTOR_wait_for_new_calibration := 0, MOTOR_calibration_step := 1 }

/-- Manually-calibrated state (`MOTOR_ManuCalibration = 200`) with the
retry-wait counter elapsed and a pending calibration start, step 2. -/
def launchManual : MotorState :=
  { initState 200 with
    MOTOR_wait_for_new_calibration := 0, MOTOR_calibration_step := 2 }

/-! ### Frame lemmas -/

/-- Full quiesce: `MOTOR_Control stop` written out. -/
lemma MOTOR_Control_stop_eq (cfg : Config) (s : MotorState) :
    MOTOR_Control cfg .stop s =
      { s with
        MOTOR_Dir := .stop,
        hw := { s.hw with
                TIMSK0 := 0,
                PCMSK0 := s.hw.PCMSK0 &&& 0xef,
                PE3 := false,
                HBridge := .stop,
                TCCR0A := TCCR0A_pwm_off } } := rfl

@[simp] lemma MOTOR_Control_PosAct (cfg d s) :
    (MOTOR_Control cfg d s).MOTOR_PosAct = s.MOTOR_PosAct := by
  unfold MOTOR_Control; split <;> [rfl; (split <;> [(split <;> rfl); rfl])]

@[simp] lemma MOTOR_Control_PosMax (cfg d s) :
    (MOTOR_Control cfg d s).MOTOR_PosMax = s.MOTOR_PosMax := by
  unfold MOTOR_Control; split <;> [rfl; (split <;> [(split <;> rfl); rfl])]

@[simp] lemma MOTOR_Control_PosStop (cfg d s) :
    (MOTOR_Control cfg d s).MOTOR_PosStop = s.MOTOR_PosStop := by
  unfold MOTOR_Control; split <;> [rfl; (split <;> [(split <;> rfl); rfl])]

@[simp] lemma MOTOR_Control_step (cfg d s) :
    (MOTOR_Control cfg d s).MOTOR_calibration_step =
      s.MOTOR_calibration_step := by
  unfold MOTOR_Control; split <;> [rfl; (split <;> [(split <;> rfl); rfl])]

@[simp] lemma MOTOR_Control_Manu (cfg d s) :
    (MOTOR_Control cfg d s).MOTOR_ManuCalibration =
      s.MOTOR_ManuCalibration := by
  unfold MOTOR_Control; split <;> [rfl; (split <;> [(split <;> rfl); rfl])]

@[simp] lemma MOTOR_Control_Dir (cfg d s) :
    (MOTOR_Control cfg d s).MOTOR_Dir = d := by
  unfold MOTOR_Control; split <;> [rfl; (split <;> [(split <;> rfl); rfl])]

@[simp] lemma MOTOR_Control_stop_eye (cfg s) :
    (MOTOR_Control cfg .stop s).eye_timer = s.eye_timer := rfl

@[simp] lemma MOTOR_Control_eeprom (cfg d s) :
    (MOTOR_Control cfg d s).eeprom_saves = s.eeprom_saves := by
  unfold MOTOR_Control; split <;> [rfl; (split <;> [(split <;> rfl); rfl])]

@[simp] lemma MOTOR_faultCheck_PosAct (cfg s) :
    (MOTOR_faultCheck cfg s).MOTOR_PosAct = s.MOTOR_PosAct := by
  unfold MOTOR_faultCheck; split <;> rfl

@[simp] lemma MOTOR_faultCheck_PosMax (cfg s) :
    (MOTOR_faultCheck cfg s).MOTOR_PosMax = s.MOTOR_PosMax := by
  unfold MOTOR_faultCheck; split <;> rfl

@[simp] lemma MOTOR_faultCheck_PosStop (cfg s) :
    (MOTOR_faultCheck cfg s).MOTOR_PosStop = s.MOTOR_PosStop := by
  unfold MOTOR_faultCheck; split <;> rfl

@[simp] lemma MOTOR_faultCheck_step (cfg s) :
    (MOTOR_faultCheck cfg s).MOTOR_calibration_step =
      s.MOTOR_calibration_step := by
  unfold MOTOR_faultCheck; split <;> rfl

@[simp] lemma MOTOR_faultCheck_Dir (cfg s) :
    (MOTOR_faultCheck cfg s).MOTOR_Dir = s.MOTOR_Dir := by
  unfold MOTOR_faultCheck; split <;> rfl

/-- Identity of `i16` on values already in the `int16_t` range. -/
lemma i16_eq_self (x : Int) (h1 : -32768 ≤ x) (h2 : x < 32768) : i16 x = x := by
  unfold i16; omega

/-- When calibrated, `MOTOR_Goto` stores exactly `MOTOR_Goto_stopPos`: the
`MOTOR_Control` calls in its body do not touch `MOTOR_PosStop`. -/
lemma Goto_PosStop_eq (cfg : Config) (pc : Nat) (s : MotorState)
    (h : s.MOTOR_calibration_step = 0) :
    (MOTOR_Goto cfg pc s).snd.MOTOR_PosStop =
      MOTOR_Goto_stopPos cfg pc s.MOTOR_PosMax := by
  simp only [MOTOR_Goto, h, if_pos]
  split
  · split
    · simp
    · split <;> simp
  · simp

/-- For intermediate percentages, under no-overflow side conditions
(`2*protection < PosMax ≤ 1300`, covering the real configuration since the
source checks `(MOTOR_MAX_IMPULSES>>2)*(100>>2) ≤ INT16_MAX` at compile
time), the interpolation computes exactly `p * ((M − 2*prot) / 4) / 25 +
prot` and lies in `[prot, M − prot)`. -/
lemma stopPos_mid (cfg : Config) (M : Int) (p : Nat)
    (hp1 : 1 ≤ p) (hp99 : p ≤ 99)
    (hrange : 2 * (cfg.motor_protection : Int) < M) (hmax : M ≤ 1300) :
    MOTOR_Goto_stopPos cfg p M =
      (p : Int) *
          ((M - (cfg.motor_protection : Int) - (cfg.motor_protection : Int)) / 4)
        / 25 + (cfg.motor_protection : Int) ∧
    (cfg.motor_protection : Int) ≤ MOTOR_Goto_stopPos cfg p M ∧
    MOTOR_Goto_stopPos cfg p M < M - (cfg.motor_protection : Int) := by
  have hprot0 : (0:Int) ≤ (cfg.motor_protection : Int) := Int.natCast_nonneg _
  have hD1 : 1 ≤ M - (cfg.motor_protection : Int)
      - (cfg.motor_protection : Int) := by
    omega
  have hne100 : ¬ (p = 100) := by omega
  have hne0 : ¬ (p = 0) := by omega
  have hK0 : 0 ≤ (M - (cfg.motor_protection : Int)
      - (cfg.motor_protection : Int)) / 4 :=
    Int.ediv_nonneg (by omega) (by norm_num)
  have hK4 : 4 * ((M - (cfg.motor_protection : Int)
        - (cfg.motor_protection : Int)) / 4)
      ≤ M - (cfg.motor_protection : Int) - (cfg.motor_protection : Int) := by
    omega
  have hK325 : (M - (cfg.motor_protection : Int)
      - (cfg.motor_protection : Int)) / 4 ≤ 325 := by omega
  have hp99i : (p : Int) ≤ 99 := by exact_mod_cast hp99
  have hpK0 : 0 ≤ (p : Int) *
      ((M - (cfg.motor_protection : Int) - (cfg.motor_protection : Int)) / 4) :=
    mul_nonneg (Int.natCast_nonneg _) hK0
  have hpK99 : (p : Int) *
        ((M - (cfg.motor_protection : Int) - (cfg.motor_protection : Int)) / 4)
      ≤ 99 * ((M - (cfg.motor_protection : Int)
        - (cfg.motor_protection : Int)) / 4) :=
    mul_le_mul_of_nonneg_right hp99i hK0
  have hpKmax : (p : Int) *
        ((M - (cfg.motor_protection : Int) - (cfg.motor_protection : Int)) / 4)
      ≤ 32175 := by
    calc (p : Int) *
          ((M - (cfg.motor_protection : Int)
            - (cfg.motor_protection : Int)) / 4)
        ≤ 99 * ((M - (cfg.motor_protection : Int)
            - (cfg.motor_protection : Int)) / 4) := hpK99
      _ ≤ 99 * 325 := by
          exact mul_le_mul_of_nonneg_left hK325 (by norm_num)
      _ = 32175 := by norm_num
  have key : MOTOR_Goto_stopPos cfg p M =
      (p : Int) *
          ((M - (cfg.motor_protection : Int) - (cfg.motor_protection : Int)) / 4)
        / 25 + (cfg.motor_protection : Int) := by
    rw [MOTOR_Goto_stopPos, if_neg hne100, if_neg hne0]
    rw [show asr2 (i16 (M - (cfg.motor_protection : Int)
          - (cfg.motor_protection : Int))) =
        (M - (cfg.motor_protection : Int) - (cfg.motor_protection : Int)) / 4 by
      rw [i16_eq_self _ (by omega) (by omega)]
      exact Int.fdiv_eq_ediv _ (by norm_num)]
    rw [i16_eq_self ((p : Int) *
        ((M - (cfg.motor_protection : Int) - (cfg.motor_protection : Int)) / 4))
      (by omega) (by omega)]
    rw [Int.tdiv_eq_ediv hpK0 (by norm_num)]
    apply i16_eq_self
    · have := Int.ediv_nonneg hpK0 (by norm_num : (0:Int) ≤ 25)
      omega
    · have := Int.ediv_le_ediv (by norm_num : (0:Int) < 25) hpKmax
      omega
  refine ⟨key, ?_, ?_⟩
  · rw [key]
    have := Int.ediv_nonneg hpK0 (by norm_num : (0:Int) ≤ 25)
    omega
  · rw [key]
    have hmono := Int.ediv_le_ediv (by norm_num : (0:Int) < 25) hpK99
    have h99 : 99 * ((M - (cfg.motor_protection : Int)
        - (cfg.motor_protection : Int)) / 4) / 25
        < M - (cfg.motor_protection : Int) - (cfg.motor_protection : Int) := by
      omega
    omega

/-! ### Claim theorems -/

/-- Claim C1: when the deferred stop handler runs with the debounce counter
at the `0xff` sentinel (motor timed out without the pulse counter reaching
the stop position), it treats this as failure: if a calibration is in
progress (`MOTOR_calibration_step ≠ 0`) it sets the step to −1, and in every
sentinel case it leaves `MOTOR_PosAct`, `MOTOR_PosMax` and `MOTOR_PosStop`
unchanged. -/
theorem timer_stop_sentinel (cfg : Config) (s : MotorState)
    (h : s.eye_timer = 0xff) :
    ((s.MOTOR_calibration_step ≠ 0 →
        (MOTOR_timer_stop cfg s).MOTOR_calibration_step = -1) ∧
     (MOTOR_timer_stop cfg s).MOTOR_PosAct = s.MOTOR_PosAct ∧
     (MOTOR_timer_stop cfg s).MOTOR_PosMax = s.MOTOR_PosMax ∧
     (MOTOR_timer_stop cfg s).MOTOR_PosStop = s.MOTOR_PosStop) := by
  by_cases hstep : s.MOTOR_calibration_step = 0 <;>
    simp [MOTOR_timer_stop, MOTOR_timer_stop_update, MOTOR_Control_stop_eq,
      MOTOR_faultCheck, h, hstep] <;>
    split <;> simp_all

/-- Witness for C1: the sentinel timeout during calibration leg 3 yields the
error step −1 and untouched positions. -/
theorem timer_stop_sentinel_witness :
    c1state.eye_timer = 0xff ∧
    ((c1state.MOTOR_calibration_step ≠ 0 →
        (MOTOR_timer_stop cfg0 c1state).MOTOR_calibration_step = -1) ∧
     (MOTOR_timer_stop cfg0 c1state).MOTOR_PosAct = c1state.MOTOR_PosAct ∧
     (MOTOR_timer_stop cfg0 c1state).MOTOR_PosMax = c1state.MOTOR_PosMax ∧
     (MOTOR_timer_stop cfg0 c1state).MOTOR_PosStop = c1state.MOTOR_PosStop) :=
  ⟨by decide, timer_stop_sentinel cfg0 c1state (by decide)⟩

/-- Counterexample to C2 as stated: `c2state` is calibrated with
`MOTOR_PosMax > 10` (so the claim requires a 0–100 scaled value, and
requires 255 only in the other states), yet `MOTOR_GetPosPercent` returns
255, because the scaling arithmetic on the negative `MOTOR_PosAct = -1`
truncates to −1 and the `uint8_t` cast turns it into 255. -/
theorem GetPosPercent_sentinel_when_calibrated :
    (c2state.MOTOR_PosMax > 10 ∧ c2state.MOTOR_calibration_step = 0) ∧
    MOTOR_GetPosPercent c2state = 255 := by decide

/-- Claim C2 (amended): `MOTOR_GetPosPercent` returns 255 whenever
`MOTOR_PosMax ≤ 10` or `MOTOR_calibration_step ≠ 0`; in the remaining
states it computes the truncating divide-then-multiply scaling
`(PosAct*10)/(PosMax/10)` cast to `uint8_t`, and the result is guaranteed to
lie in 0–100 only when `0 ≤ PosAct ≤ 10*(PosMax/10)` and the multiplication
`PosAct*10` does not overflow `int16_t`. -/
theorem GetPosPercent_spec (s : MotorState) :
    ((s.MOTOR_PosMax ≤ 10 ∨ s.MOTOR_calibration_step ≠ 0) →
      MOTOR_GetPosPercent s = 255) ∧
    (s.MOTOR_PosMax > 10 → s.MOTOR_calibration_step = 0 →
      0 ≤ s.MOTOR_PosAct →
      s.MOTOR_PosAct ≤ 10 * (s.MOTOR_PosMax.tdiv 10) →
      10 * s.MOTOR_PosAct ≤ 32767 →
      MOTOR_GetPosPercent s ≤ 100) := by
  constructor
  · intro h
    rw [MOTOR_GetPosPercent, if_neg]
    rintro ⟨h1, h2⟩
    rcases h with h | h
    · omega
    · exact h h2
  · intro hM hstep hA hAM hbound
    have hM0 : (0:Int) ≤ s.MOTOR_PosMax := by omega
    have htd : s.MOTOR_PosMax.tdiv 10 = s.MOTOR_PosMax / 10 :=
      Int.tdiv_eq_ediv hM0 (by norm_num)
    rw [htd] at hAM
    have hM10 : 1 ≤ s.MOTOR_PosMax / 10 := by omega
    rw [MOTOR_GetPosPercent, if_pos ⟨hM, hstep⟩, htd]
    rw [i16_eq_self _ (by omega) (by omega)]
    rw [Int.tdiv_eq_ediv (by omega) (by omega)]
    have h1 : s.MOTOR_PosAct * 10 ≤ 100 * (s.MOTOR_PosMax / 10) := by omega
    have h2 : s.MOTOR_PosAct * 10 / (s.MOTOR_PosMax / 10) ≤ 100 := by
      calc s.MOTOR_PosAct * 10 / (s.MOTOR_PosMax / 10)
          ≤ 100 * (s.MOTOR_PosMax / 10) / (s.MOTOR_PosMax / 10) :=
            Int.ediv_le_ediv (by omega) h1
        _ = 100 := Int.mul_ediv_cancel _ (by omega)
    have h3 : 0 ≤ s.MOTOR_PosAct * 10 / (s.MOTOR_PosMax / 10) :=
      Int.ediv_nonneg (by omega) (by omega)
    generalize s.MOTOR_PosAct * 10 / (s.MOTOR_PosMax / 10) = v at h2 h3 ⊢
    omega

/-- Witness for C2 (amended): an uncalibrated state yields 255 and a
calibrated in-range state yields a value within 0–100. -/
theorem GetPosPercent_spec_witness :
    ((initState (-1)).MOTOR_PosMax ≤ 10 ∧
     MOTOR_GetPosPercent (initState (-1)) = 255) ∧
    (c2okState.MOTOR_PosMax > 10 ∧
     MOTOR_GetPosPercent c2okState ≤ 100) :=
  ⟨⟨by decide, (GetPosPercent_spec (initState (-1))).1 (Or.inl (by decide))⟩,
   ⟨by decide, (GetPosPercent_spec c2okState).2 (by decide) (by decide)
      (by decide) (by decide) (by decide)⟩⟩

/-- Counterexample to C3 as stated: in `c3state`, `MOTOR_IsCalibrated` is
false (because `MOTOR_PosMax = 0`) yet `MOTOR_Goto 50` returns true —
`MOTOR_Goto` checks only `MOTOR_calibration_step`, not `MOTOR_PosMax`. -/
theorem Goto_isCalibrated_false_but_true :
    MOTOR_IsCalibrated c3state = false ∧
    (MOTOR_Goto cfg0 50 c3state).fst = true := by decide

/-- Claim C3 (amended): for every percent, `MOTOR_Goto` called with
`MOTOR_calibration_step ≠ 0` returns false and leaves the entire motor state
(including `MOTOR_PosStop` and `MOTOR_Dir`) unchanged; the
`MOTOR_PosMax = 0` component of `MOTOR_IsCalibrated` is not checked. -/
theorem Goto_uncalibrated_noop (cfg : Config) (percent : Nat) (s : MotorState)
    (h : s.MOTOR_calibration_step ≠ 0) :
    MOTOR_Goto cfg percent s = (false, s) := by
  simp [MOTOR_Goto, h]

/-- Witness for C3 (amended): `MOTOR_Goto 50` on the initial uncalibrated
state fails and changes nothing. -/
theorem Goto_uncalibrated_noop_witness :
    (initState (-1)).MOTOR_calibration_step ≠ 0 ∧
    MOTOR_Goto cfg0 50 (initState (-1)) = (false, initState (-1)) :=
  ⟨by decide, Goto_uncalibrated_noop cfg0 50 (initState (-1)) (by decide)⟩

/-- Claim C4: when calibrated (with a positive hysteresis margin, a travel
range exceeding twice the protection margin, and a range small enough that
the compile-time no-overflow guard of the source holds), the stop position
`MOTOR_Goto` computes for every percent in [1,99] lies strictly between the
stop positions for percent 0 and percent 100, and is monotone in the
percentage. -/
theorem Goto_stopPos_between_and_monotone (cfg : Config) (s : MotorState)
    (hstep : s.MOTOR_calibration_step = 0)
    (hhyst1 : 1 ≤ cfg.motor_hysteresis) (hhyst2 : cfg.motor_hysteresis ≤ 255)
    (hrange : 2 * (cfg.motor_protection : Int) < s.MOTOR_PosMax)
    (hmax : s.MOTOR_PosMax ≤ 1300)
    (p q : Nat) (hp1 : 1 ≤ p) (hp99 : p ≤ 99) (hq99 : q ≤ 99) (hpq : p ≤ q) :
    (MOTOR_Goto cfg 0 s).snd.MOTOR_PosStop <
        (MOTOR_Goto cfg p s).snd.MOTOR_PosStop ∧
    (MOTOR_Goto cfg p s).snd.MOTOR_PosStop <
        (MOTOR_Goto cfg 100 s).snd.MOTOR_PosStop ∧
    (MOTOR_Goto cfg p s).snd.MOTOR_PosStop ≤
        (MOTOR_Goto cfg q s).snd.MOTOR_PosStop := by
  have hprot0 : (0:Int) ≤ (cfg.motor_protection : Int) := Int.natCast_nonneg _
  rw [Goto_PosStop_eq cfg 0 s hstep, Goto_PosStop_eq cfg p s hstep,
    Goto_PosStop_eq cfg q s hstep, Goto_PosStop_eq cfg 100 s hstep]
  obtain ⟨keyp, lop, hip⟩ := stopPos_mid cfg s.MOTOR_PosMax p hp1 hp99 hrange hmax
  obtain ⟨keyq, loq, hiq⟩ :=
    stopPos_mid cfg s.MOTOR_PosMax q (by omega) hq99 hrange hmax
  have hstop0 : MOTOR_Goto_stopPos cfg 0 s.MOTOR_PosMax =
      (cfg.motor_protection : Int) - (cfg.motor_hysteresis : Int) := by
    rw [MOTOR_Goto_stopPos, if_neg (by decide), if_pos rfl]
    exact i16_eq_self _ (by omega) (by omega)
  have hstop100 : MOTOR_Goto_stopPos cfg 100 s.MOTOR_PosMax =
      s.MOTOR_PosMax + (cfg.motor_hysteresis : Int)
        - (cfg.motor_protection : Int) := by
    rw [MOTOR_Goto_stopPos, if_pos rfl]
    exact i16_eq_self _ (by omega) (by omega)
  refine ⟨?_, ?_, ?_⟩
  · rw [hstop0]
    omega
  · rw [hstop100]
    omega
  · rw [keyp, keyq]
    have hK0 : 0 ≤ (s.MOTOR_PosMax - (cfg.motor_protection : Int)
        - (cfg.motor_protection : Int)) / 4 :=
      Int.ediv_nonneg (by omega) (by norm_num)
    have hpqi : (p : Int) ≤ (q : Int) := by exact_mod_cast hpq
    have hPP : (p : Int) * ((s.MOTOR_PosMax - (cfg.motor_protection : Int)
          - (cfg.motor_protection : Int)) / 4)
        ≤ (q : Int) * ((s.MOTOR_PosMax - (cfg.motor_protection : Int)
          - (cfg.motor_protection : Int)) / 4) :=
      mul_le_mul_of_nonneg_right hpqi hK0
    exact add_le_add_right (Int.ediv_le_ediv (by norm_num) hPP) _

/-- Witness for C4 at percents 30 ≤ 60 on a calibrated 100-pulse range. -/
theorem Goto_stopPos_between_and_monotone_witness :
    (c4state.MOTOR_calibration_step = 0 ∧
     2 * (cfg0.motor_protection : Int) < c4state.MOTOR_PosMax) ∧
    ((MOTOR_Goto cfg0 0 c4state).snd.MOTOR_PosStop <
        (MOTOR_Goto cfg0 30 c4state).snd.MOTOR_PosStop ∧
     (MOTOR_Goto cfg0 30 c4state).snd.MOTOR_PosStop <
        (MOTOR_Goto cfg0 100 c4state).snd.MOTOR_PosStop ∧
     (MOTOR_Goto cfg0 30 c4state).snd.MOTOR_PosStop ≤
        (MOTOR_Goto cfg0 60 c4state).snd.MOTOR_PosStop) :=
  ⟨⟨by decide, by decide⟩,
   Goto_stopPos_between_and_monotone cfg0 c4state (by decide) (by decide)
     (by decide) (by decide) (by decide) 30 60 (by decide) (by decide)
     (by decide) (by decide)⟩

/-- Claim C5: a qualifying feedback pulse (rising edge on `PE4` with the
debounce counter at zero) that makes `MOTOR_PosAct` equal `MOTOR_PosStop`
does not stop the motor immediately: it sets the debounce counter to the
`0xff` expected-stop sentinel and arms the short fixed overrun timeout
`MOTOR_RUN_OVERLOAD` instead of the per-pulse timeout, leaving the direction
and all hardware outputs unchanged. -/
theorem ISR_pulse_expected_stop (cfg : Config) (pine : Nat) (s : MotorState)
    (hedge : pine.testBit 4) (hlast : ¬ s.pine_last.testBit 4)
    (hdeb : s.eye_timer = 0)
    (htarget : i16 (s.MOTOR_PosAct + dirSign s.MOTOR_Dir) = s.MOTOR_PosStop) :
    (ISR_PCINT0 cfg pine s).eye_timer = 0xff ∧
    (ISR_PCINT0 cfg pine s).motor_timer = MOTOR_RUN_OVERLOAD ∧
    (ISR_PCINT0 cfg pine s).MOTOR_Dir = s.MOTOR_Dir ∧
    (ISR_PCINT0 cfg pine s).hw = s.hw ∧
    (ISR_PCINT0 cfg pine s).task_motor_pulse = true := by
  simp [ISR_PCINT0, hedge, hlast, hdeb, htarget]

/-- Witness for C5: the pulse taking `c5state` from position 41 to its stop
position 42 arms the sentinel and the overrun timeout. -/
theorem ISR_pulse_expected_stop_witness :
    (Nat.testBit 16 4 ∧ ¬ c5state.pine_last.testBit 4 ∧ c5state.eye_timer = 0 ∧
     i16 (c5state.MOTOR_PosAct + dirSign c5state.MOTOR_Dir) =
       c5state.MOTOR_PosStop) ∧
    ((ISR_PCINT0 cfg0 16 c5state).eye_timer = 0xff ∧
     (ISR_PCINT0 cfg0 16 c5state).motor_timer = MOTOR_RUN_OVERLOAD ∧
     (ISR_PCINT0 cfg0 16 c5state).MOTOR_Dir = c5state.MOTOR_Dir ∧
     (ISR_PCINT0 cfg0 16 c5state).hw = c5state.hw ∧
     (ISR_PCINT0 cfg0 16 c5state).task_motor_pulse = true) :=
  ⟨⟨by decide, by decide, by decide, by decide⟩,
   ISR_pulse_expected_stop cfg0 16 c5state (by decide) (by decide) (by decide)
     (by decide)⟩

/-- Claim C6: from any state, `MOTOR_updateCalibration` with `cal_type` 0
stops the motor immediately and resets all calibration state:
`MOTOR_calibration_step = -2`, `MOTOR_PosAct = 0`, `MOTOR_PosMax = 0` and
`MOTOR_Dir = stop`. -/
theorem updateCalibration_type0_resets (cfg : Config) (percent : Nat)
    (s : MotorState) :
    (MOTOR_updateCalibration cfg 0 percent s).MOTOR_calibration_step = -2 ∧
    (MOTOR_updateCalibration cfg 0 percent s).MOTOR_PosAct = 0 ∧
    (MOTOR_updateCalibration cfg 0 percent s).MOTOR_PosMax = 0 ∧
    (MOTOR_updateCalibration cfg 0 percent s).MOTOR_Dir = .stop := by
  simp [MOTOR_updateCalibration, MOTOR_Control_stop_eq]

/-- Counterexample to C7 as stated: after exactly five
`MOTOR_updateCalibration 1 0` calls from the fully-uninitialized auto-mode
state, the calibration step is still 1 and no motor-open command has been
issued (direction and H-bridge still `stop`): five calls only consume the
retry-wait counter (initially 5). -/
theorem calibration_five_calls_insufficient :
    ((MOTOR_updateCalibration cfg0 1 0)^[5]
        (initState (-1))).MOTOR_calibration_step = 1 ∧
    ((MOTOR_updateCalibration cfg0 1 0)^[5] (initState (-1))).MOTOR_Dir =
      .stop ∧
    ((MOTOR_updateCalibration cfg0 1 0)^[5] (initState (-1))).hw.HBridge =
      .stop := by
  decide

/-- Claim C7 (amended): from the fully-uninitialized auto-mode state, six
`MOTOR_updateCalibration 1 0` calls let the retry-wait counter (5) elapse
during the first five calls and on the sixth advance the calibration step
from 1 to 3 and issue a motor-open command with
`MOTOR_PosStop = +MOTOR_MAX_IMPULSES`; the first movement leg is a full
close only when no manual calibration is configured
(`MOTOR_ManuCalibration = -1`) and the passed percent exceeds 50, else a
full open. -/
theorem calibration_six_calls_launch_open :
    (((MOTOR_updateCalibration cfg0 1 0)^[6]
        (initState (-1))).MOTOR_calibration_step = 3 ∧
     ((MOTOR_updateCalibration cfg0 1 0)^[6] (initState (-1))).MOTOR_Dir =
       .open_ ∧
     ((MOTOR_updateCalibration cfg0 1 0)^[6] (initState (-1))).MOTOR_PosStop =
       cfg0.MOTOR_MAX_IMPULSES ∧
     ((MOTOR_updateCalibration cfg0 1 0)^[6] (initState (-1))).hw.HBridge =
       .open_) ∧
    ((MOTOR_updateCalibration cfg0 1 60 launchAuto).MOTOR_Dir = .close ∧
     (MOTOR_updateCalibration cfg0 1 60 launchManual).MOTOR_Dir = .open_) := by
  decide

/-- Claim C8: calling `MOTOR_Control` with the already-active non-stop
direction is a complete no-op (state, hardware, timers all unchanged), while
`MOTOR_Control stop` always performs the full quiesce — timer interrupt
mask cleared, eye pin-change interrupt masked out, photo-eye powered down,
H-bridge stopped and the PWM clock stopped — even when the direction is
already `stop`. -/
theorem Control_idempotent_and_stop_quiesce (cfg : Config) (s : MotorState)
    (d : motor_dir_t) :
    (d ≠ .stop → s.MOTOR_Dir = d → MOTOR_Control cfg d s = s) ∧
    ((MOTOR_Control cfg .stop s).hw.TIMSK0 = 0 ∧
     (MOTOR_Control cfg .stop s).hw.PCMSK0 = s.hw.PCMSK0 &&& 0xef ∧
     (MOTOR_Control cfg .stop s).hw.PE3 = false ∧
     (MOTOR_Control cfg .stop s).hw.HBridge = .stop ∧
     (MOTOR_Control cfg .stop s).hw.TCCR0A = TCCR0A_pwm_off ∧
     (MOTOR_Control cfg .stop s).MOTOR_Dir = .stop) := by
  constructor
  · intro h1 h2
    cases s
    simp_all [MOTOR_Control]
  · simp [MOTOR_Control_stop_eq]

/-- Witness for C8: repeating `MOTOR_Control open` on a state already
opening changes nothing. -/
theorem Control_idempotent_witness :
    (motor_dir_t.open_ ≠ .stop ∧ c8state.MOTOR_Dir = .open_) ∧
    MOTOR_Control cfg0 .open_ c8state = c8state :=
  ⟨⟨by decide, by decide⟩,
   (Control_idempotent_and_stop_quiesce cfg0 c8state .open_).1 (by decide)
     (by decide)⟩

/-- Claim C9: after every run of the deferred stop handler, the motor fault
flag is set if and only if the resulting state is calibrated
(`MOTOR_calibration_step = 0`) and the position exceeds
`MOTOR_MAX_IMPULSES + 1` or the travel range is below
`MOTOR_MIN_IMPULSES`; in every other case the handler clears the flag. -/
theorem timer_stop_fault_flag_iff (cfg : Config) (s : MotorState) :
    (MOTOR_timer_stop cfg s).CTL_error_motor = true ↔
      ((MOTOR_timer_stop cfg s).MOTOR_calibration_step = 0 ∧
       ((MOTOR_timer_stop cfg s).MOTOR_PosAct > cfg.MOTOR_MAX_IMPULSES + 1 ∨
        (MOTOR_timer_stop cfg s).MOTOR_PosMax < cfg.MOTOR_MIN_IMPULSES)) := by
  unfold MOTOR_timer_stop MOTOR_faultCheck
  split
  · rename_i hcond
    simpa using hcond
  · rename_i hcond
    simpa using hcond

/-- Claim C10: `MOTOR_Goto` on a calibrated idle state whose actual position
already equals the newly computed stop position returns true but issues no
motor command: only `MOTOR_PosStop` is written, the direction stays `stop`
and the hardware is untouched. -/
theorem Goto_idle_at_target_noop (cfg : Config) (percent : Nat)
    (s : MotorState) (hstep : s.MOTOR_calibration_step = 0)
    (hdir : s.MOTOR_Dir = .stop)
    (htarget : s.MOTOR_PosAct = MOTOR_Goto_stopPos cfg percent s.MOTOR_PosMax) :
    (MOTOR_Goto cfg percent s).fst = true ∧
    (MOTOR_Goto cfg percent s).snd =
      { s with MOTOR_PosStop :=
          MOTOR_Goto_stopPos cfg percent s.MOTOR_PosMax } ∧
    (MOTOR_Goto cfg percent s).snd.MOTOR_Dir = .stop ∧
    (MOTOR_Goto cfg percent s).snd.hw = s.hw := by
  simp [MOTOR_Goto, hstep, hdir, htarget]

/-- Witness for C10: `MOTOR_Goto 0` on a calibrated idle state resting at
the 0% stop position (position 5 under `cfg0`). -/
theorem Goto_idle_at_target_noop_witness :
    (c10state.MOTOR_calibration_step = 0 ∧ c10state.MOTOR_Dir = .stop ∧
     c10state.MOTOR_PosAct = MOTOR_Goto_stopPos cfg0 0 c10state.MOTOR_PosMax) ∧
    ((MOTOR_Goto cfg0 0 c10state).fst = true ∧
     (MOTOR_Goto cfg0 0 c10state).snd =
       { c10state with
         MOTOR_PosStop := MOTOR_Goto_stopPos cfg0 0 c10state.MOTOR_PosMax } ∧
     (MOTOR_Goto cfg0 0 c10state).snd.MOTOR_Dir = .stop ∧
     (MOTOR_Goto cfg0 0 c10state).snd.hw = c10state.hw) :=
  ⟨⟨by decide, by decide, by decide⟩,
   Goto_idle_at_target_noop cfg0 0 c10state (by decide) (by decide)
     (by decide)⟩
